import Mathlib

/-!
Shallow embedding of `src/updatershell/usbshell.cpp` (the USB command
dispatch loop of the updater shell).

The dispatcher owns a framed transport and repeatedly reads a fixed-size
request frame, decodes its 4-byte command tag, writes exactly one response
frame, and possibly runs a command-specific data phase.  We model one run of
`usbshell_loop` against a finite schedule of incoming request frames as the
list of observable transport calls it makes (the trace).  External
collaborators (device-info provider, process spawner, `open`, the bootloader
reader, and the transport's streaming primitives, none of which are part of
the dispatcher source) are supplied by an environment record.
-/

/-- Pack four ASCII characters into a 32-bit tag value, little-endian, as the
expression `*(int *) "TEST"` does on the little-endian target. -/
def pack4 (c0 c1 c2 c3 : Char) : Nat :=
  c0.toNat + 256 * c1.toNat + 65536 * c2.toNat + 16777216 * c3.toNat

/-- Tag value of the command `TEST`. -/
def TAG_TEST : Nat := pack4 'T' 'E' 'S' 'T'

/-- Tag value of the command `INFO`. -/
def TAG_INFO : Nat := pack4 'I' 'N' 'F' 'O'

/-- Tag value of the command `SHEL`. -/
def TAG_SHEL : Nat := pack4 'S' 'H' 'E' 'L'

/-- Tag value of the command `EXEC`. -/
def TAG_EXEC : Nat := pack4 'E' 'X' 'E' 'C'

/-- Tag value of the command `PULL`. -/
def TAG_PULL : Nat := pack4 'P' 'U' 'L' 'L'

/-- Tag value of the command `BLDR`. -/
def TAG_BLDR : Nat := pack4 'B' 'L' 'D' 'R'

/-- Tag value of the command `EXIT`. -/
def TAG_EXIT : Nat := pack4 'E' 'X' 'I' 'T'

/-- The constant `USB_RESULT_SUCCESS` of `usbshell.cpp`. -/
def USB_RESULT_SUCCESS : Int := 0

/-- The constant `USB_RESULT_ERROR` of `usbshell.cpp`. -/
def USB_RESULT_ERROR : Int := -1

/-- The constant `USB_FEATURE_SHELL` of `usbshell.cpp`. -/
def USB_FEATURE_SHELL : Nat := 0x23

/-- Store an unsigned `size_t` value into the 32-bit signed `int` field
`result`: the value is reduced modulo 2^32 and reinterpreted as a
two's-complement signed 32-bit integer. -/
def toInt32 (n : Nat) : Int :=
  if n % 2 ^ 32 < 2 ^ 31 then ((n % 2 ^ 32 : Nat) : Int)
  else ((n % 2 ^ 32 : Nat) : Int) - 2 ^ 32

/-- The struct `usb_shell_request`: a 32-bit command tag followed by a fixed
65528-byte (`0xfff8`) payload, modelled as a list of bytes. -/
structure usb_shell_request where
  cmd : Nat
  data : List Nat
deriving DecidableEq

/-- Modelled from the spec: the fixed-size device-info record produced by the
Device-Info Provider (`deviceinfo.h` is an external collaborator, not part of
the dispatcher source); its contents are abstract here. -/
structure device_info where
  val : Nat
deriving DecidableEq

/-- One observable call the dispatcher makes on the framed transport.  The
transport primitives (`UsbSequenceTransfer::read` and `::write`,
`usb_transfer_socket`, `usb_transfer_read_fd`, `usb_transfer_read_buffer`)
are external collaborators; modelled from the spec as trace events:
a request-frame read, a response-frame write carrying the 32-bit signed
result, the zero-length synchronizing read, the device-info record write,
the bidirectional process bridge, the read-until-EOF file stream (carrying
the bytes the descriptor yields), a streamed block buffer, and the `close`
of the bootloader descriptor. -/
inductive Event where
  | readReq (r : usb_shell_request)
  | writeResp (result : Int)
  | readEmpty
  | writeInfo (info : device_info)
  | bridge (fdIn fdOut : Int)
  | streamFd (fd : Int) (bytes : List Nat)
  | streamBuf (bytes : List Nat)
  | closeFd (fd : Int)
deriving DecidableEq

/-- The external collaborators consumed by the dispatch loop, as pure data:
the device-info provider's status and record, the spawner's results for
`sh -i` and for `sh -c <payload>` (a pid, negative on failure, plus the piped
descriptors), the platform `open` on a payload path and on `BOOTLOADER_DEV`
(a nonnegative descriptor or a negative platform error code), the bytes a
descriptor streams until EOF, and the bootloader reader: the block count
(a `size_t`), the block descriptor table obtained through a device handle,
each descriptor's byte length, and the bytes read for a block through a
handle. -/
structure Env where
  get_device_info : Int × device_info
  popen2_shell : Int × Int × Int
  popen2_exec : List Nat → Int × Int
  open_path : List Nat → Int
  fd_contents : Int → List Nat
  open_bldr : Int
  num_blocks : Nat
  get_block : Int → Nat → Nat
  block_size : Nat → Nat
  read_block_byte : Int → Nat → Nat → Nat

/-- The transient buffer streamed for block `i` in the `BLDR` handler:
`char block_buf[l]` with `l = bootloader_get_block_size(blocks + i)`, filled
by `bootloader_read_block(fd, blocks + i, block_buf)` — a buffer of exactly
`l` bytes read through handle `fd`. -/
def block_buf (env : Env) (fd : Int) (i : Nat) : List Nat :=
  (List.range (env.block_size (env.get_block fd i))).map
    (env.read_block_byte fd (env.get_block fd i))

/-- One iteration body of `usbshell_loop`, translated branch by branch from
`usbshell.cpp`: given the request frame just read, the events written or
streamed for it (response frame first, then any data phase), together with
whether the `break` of the `EXIT` branch was taken. -/
def handle (env : Env) (r : usb_shell_request) : List Event × Bool :=
  if r.cmd = TAG_TEST then
    ([Event.writeResp USB_RESULT_SUCCESS], false)
  else if r.cmd = TAG_INFO then
    (Event.writeResp (if (env.get_device_info).1 = 0 then USB_RESULT_SUCCESS
        else (env.get_device_info).1) ::
      (if (env.get_device_info).1 = 0 then
        [Event.readEmpty, Event.writeInfo (env.get_device_info).2] else []),
      false)
  else if r.cmd = TAG_SHEL then
    (Event.writeResp (if 0 ≤ (env.popen2_shell).1 then USB_RESULT_SUCCESS
        else (env.popen2_shell).1) ::
      (if 0 ≤ (env.popen2_shell).1 then
        [Event.bridge (env.popen2_shell).2.1 (env.popen2_shell).2.2] else []),
      false)
  else if r.cmd = TAG_EXEC then
    (Event.writeResp (if 0 ≤ (env.popen2_exec r.data).1 then USB_RESULT_SUCCESS
        else (env.popen2_exec r.data).1) ::
      (if 0 ≤ (env.popen2_exec r.data).1 then
        [Event.bridge 0 (env.popen2_exec r.data).2] else []),
      false)
  else if r.cmd = TAG_PULL then
    (Event.writeResp (if 0 ≤ env.open_path r.data then USB_RESULT_SUCCESS
        else env.open_path r.data) ::
      (if 0 ≤ env.open_path r.data then
        [Event.streamFd (env.open_path r.data)
          (env.fd_contents (env.open_path r.data))] else []),
      false)
  else if r.cmd = TAG_BLDR then
    (Event.writeResp (toInt32 env.num_blocks) ::
      ((List.range env.num_blocks).map
        (fun i => Event.streamBuf (block_buf env env.open_bldr i)) ++
       [Event.closeFd env.open_bldr]),
      false)
  else if r.cmd = TAG_EXIT then
    ([Event.writeResp USB_RESULT_SUCCESS], true)
  else
    ([Event.writeResp USB_RESULT_ERROR], false)

/-- The dispatch loop `usbshell_loop`, run against a finite schedule of
incoming request frames: each iteration reads one request frame, emits that
request's events, and continues with the remaining schedule unless the
`EXIT` branch broke out of the loop. -/
def usbshell_loop (env : Env) : List usb_shell_request → List Event
  | [] => []
  | r :: rs =>
    Event.readReq r ::
      ((handle env r).1 ++
        if (handle env r).2 then [] else usbshell_loop env rs)

/-- An event of the data phase: neither a request-frame read nor a
response-frame write. -/
def isData : Event → Bool
  | Event.readReq _ => false
  | Event.writeResp _ => false
  | _ => true

/-- Strict lock-step shape of a dispatcher trace: a sequence of segments,
each consisting of exactly one request-frame read, then exactly one
response-frame write, then only data-phase events until the next segment. -/
inductive LockStep : List Event → Prop where
  | nil : LockStep []
  | seg : ∀ (r : usb_shell_request) (v : Int) (ds rest : List Event),
      (∀ e ∈ ds, isData e = true) → LockStep rest →
      LockStep (Event.readReq r :: Event.writeResp v :: (ds ++ rest))

/-- A fixed device-info record used in concrete runs. -/
def info0 : device_info := ⟨7⟩

/-- A request frame with a given tag and an empty payload prefix. -/
def reqOf (t : Nat) : usb_shell_request := ⟨t, []⟩

/-- A `TEST` request whose full 65528-byte payload is present. -/
def reqTestFull : usb_shell_request := ⟨TAG_TEST, List.replicate 65528 37⟩

/-- A request whose tag `XYZQ` is outside the known command set. -/
def reqUnknown : usb_shell_request := ⟨pack4 'X' 'Y' 'Z' 'Q', []⟩

/-- An environment in which every fallible collaborator succeeds. -/
def env0 : Env :=
  { get_device_info := (0, info0)
    popen2_shell := (5, 10, 11)
    popen2_exec := fun _ => (6, 12)
    open_path := fun _ => 3
    fd_contents := fun _ => [104, 105]
    open_bldr := 4
    num_blocks := 2
    get_block := fun _ i => i
    block_size := fun d => d + 1
    read_block_byte := fun _ d j => d * 10 + j }

/-- An environment in which every fallible collaborator fails: the
device-info provider reports error `-19`, both spawns fail (`-3`, `-4`),
`open` of a payload path fails with `-2`, and `open` of the bootloader
device fails with `-9`. -/
def envFail : Env :=
  { get_device_info := (-19, info0)
    popen2_shell := (-3, 0, 0)
    popen2_exec := fun _ => (-4, 0)
    open_path := fun _ => -2
    fd_contents := fun _ => []
    open_bldr := -9
    num_blocks := 2
    get_block := fun _ i => i
    block_size := fun d => d + 1
    read_block_byte := fun _ d j => d * 10 + j }

/-- An environment whose bootloader reader reports 2^31 image blocks. -/
def envBig : Env :=
  { get_device_info := (0, info0)
    popen2_shell := (5, 10, 11)
    popen2_exec := fun _ => (6, 12)
    open_path := fun _ => 3
    fd_contents := fun _ => []
    open_bldr := -1
    num_blocks := 2 ^ 31
    get_block := fun _ i => i
    block_size := fun d => d + 1
    read_block_byte := fun _ d j => d * 10 + j }

theorem handle_test_eq (env : Env) (r : usb_shell_request)
    (h : r.cmd = TAG_TEST) :
    handle env r = ([Event.writeResp USB_RESULT_SUCCESS], false) := by
  unfold handle
  rw [h]
  rw [if_pos rfl]

theorem handle_info_eq (env : Env) (r : usb_shell_request)
    (h : r.cmd = TAG_INFO) :
    handle env r =
      (Event.writeResp (if (env.get_device_info).1 = 0 then USB_RESULT_SUCCESS
          else (env.get_device_info).1) ::
        (if (env.get_device_info).1 = 0 then
          [Event.readEmpty, Event.writeInfo (env.get_device_info).2] else []),
        false) := by
  unfold handle
  rw [h]
  rw [if_neg (by decide), if_pos rfl]

theorem handle_shel_eq (env : Env) (r : usb_shell_request)
    (h : r.cmd = TAG_SHEL) :
    handle env r =
      (Event.writeResp (if 0 ≤ (env.popen2_shell).1 then USB_RESULT_SUCCESS
          else (env.popen2_shell).1) ::
        (if 0 ≤ (env.popen2_shell).1 then
          [Event.bridge (env.popen2_shell).2.1 (env.popen2_shell).2.2]
         else []),
        false) := by
  unfold handle
  rw [h]
  rw [if_neg (by decide), if_neg (by decide), if_pos rfl]

theorem handle_exec_eq (env : Env) (r : usb_shell_request)
    (h : r.cmd = TAG_EXEC) :
    handle env r =
      (Event.writeResp (if 0 ≤ (env.popen2_exec r.data).1 then
          USB_RESULT_SUCCESS else (env.popen2_exec r.data).1) ::
        (if 0 ≤ (env.popen2_exec r.data).1 then
          [Event.bridge 0 (env.popen2_exec r.data).2] else []),
        false) := by
  unfold handle
  rw [h]
  rw [if_neg (by decide), if_neg (by decide), if_neg (by decide), if_pos rfl]

theorem handle_pull_eq (env : Env) (r : usb_shell_request)
    (h : r.cmd = TAG_PULL) :
    handle env r =
      (Event.writeResp (if 0 ≤ env.open_path r.data then USB_RESULT_SUCCESS
          else env.open_path r.data) ::
        (if 0 ≤ env.open_path r.data then
          [Event.streamFd (env.open_path r.data)
            (env.fd_contents (env.open_path r.data))] else []),
        false) := by
  unfold handle
  rw [h]
  rw [if_neg (by decide), if_neg (by decide), if_neg (by decide),
    if_neg (by decide), if_pos rfl]

theorem handle_bldr_eq (env : Env) (r : usb_shell_request)
    (h : r.cmd = TAG_BLDR) :
    handle env r =
      (Event.writeResp (toInt32 env.num_blocks) ::
        ((List.range env.num_blocks).map
          (fun i => Event.streamBuf (block_buf env env.open_bldr i)) ++
         [Event.closeFd env.open_bldr]),
        false) := by
  unfold handle
  rw [h]
  rw [if_neg (by decide), if_neg (by decide), if_neg (by decide),
    if_neg (by decide), if_neg (by decide), if_pos rfl]

theorem handle_exit_eq (env : Env) (r : usb_shell_request)
    (h : r.cmd = TAG_EXIT) :
    handle env r = ([Event.writeResp USB_RESULT_SUCCESS], true) := by
  unfold handle
  rw [h]
  rw [if_neg (by decide), if_neg (by decide), if_neg (by decide),
    if_neg (by decide), if_neg (by decide), if_neg (by decide), if_pos rfl]

theorem handle_unknown_eq (env : Env) (r : usb_shell_request)
    (h1 : r.cmd ≠ TAG_TEST) (h2 : r.cmd ≠ TAG_INFO) (h3 : r.cmd ≠ TAG_SHEL)
    (h4 : r.cmd ≠ TAG_EXEC) (h5 : r.cmd ≠ TAG_PULL) (h6 : r.cmd ≠ TAG_BLDR)
    (h7 : r.cmd ≠ TAG_EXIT) :
    handle env r = ([Event.writeResp USB_RESULT_ERROR], false) := by
  unfold handle
  rw [if_neg h1, if_neg h2, if_neg h3, if_neg h4, if_neg h5, if_neg h6,
    if_neg h7]

theorem handle_shape (env : Env) (r : usb_shell_request) :
    ∃ v ds, (handle env r).1 = Event.writeResp v :: ds ∧
      ∀ e ∈ ds, isData e = true := by
  by_cases h1 : r.cmd = TAG_TEST
  · exact ⟨USB_RESULT_SUCCESS, [], by rw [handle_test_eq env r h1], by simp⟩
  by_cases h2 : r.cmd = TAG_INFO
  · by_cases he : (env.get_device_info).1 = 0
    · refine ⟨USB_RESULT_SUCCESS,
        [Event.readEmpty, Event.writeInfo (env.get_device_info).2], ?_, ?_⟩
      · rw [handle_info_eq env r h2]
        simp only [if_pos he]
      · intro e hmem
        rcases List.mem_cons.mp hmem with rfl | hmem
        · rfl
        · rcases List.mem_singleton.mp hmem with rfl
          rfl
    · refine ⟨(env.get_device_info).1, [], ?_, by simp⟩
      rw [handle_info_eq env r h2]
      simp only [if_neg he]
  by_cases h3 : r.cmd = TAG_SHEL
  · by_cases hp : 0 ≤ (env.popen2_shell).1
    · refine ⟨USB_RESULT_SUCCESS,
        [Event.bridge (env.popen2_shell).2.1 (env.popen2_shell).2.2], ?_, ?_⟩
      · rw [handle_shel_eq env r h3]
        simp only [if_pos hp]
      · intro e hmem
        rcases List.mem_singleton.mp hmem with rfl
        rfl
    · refine ⟨(env.popen2_shell).1, [], ?_, by simp⟩
      rw [handle_shel_eq env r h3]
      simp only [if_neg hp]
  by_cases h4 : r.cmd = TAG_EXEC
  · by_cases hp : 0 ≤ (env.popen2_exec r.data).1
    · refine ⟨USB_RESULT_SUCCESS, [Event.bridge 0 (env.popen2_exec r.data).2],
        ?_, ?_⟩
      · rw [handle_exec_eq env r h4]
        simp only [if_pos hp]
      · intro e hmem
        rcases List.mem_singleton.mp hmem with rfl
        rfl
    · refine ⟨(env.popen2_exec r.data).1, [], ?_, by simp⟩
      rw [handle_exec_eq env r h4]
      simp only [if_neg hp]
  by_cases h5 : r.cmd = TAG_PULL
  · by_cases hp : 0 ≤ env.open_path r.data
    · refine ⟨USB_RESULT_SUCCESS,
        [Event.streamFd (env.open_path r.data)
          (env.fd_contents (env.open_path r.data))], ?_, ?_⟩
      · rw [handle_pull_eq env r h5]
        simp only [if_pos hp]
      · intro e hmem
        rcases List.mem_singleton.mp hmem with rfl
        rfl
    · refine ⟨env.open_path r.data, [], ?_, by simp⟩
      rw [handle_pull_eq env r h5]
      simp only [if_neg hp]
  by_cases h6 : r.cmd = TAG_BLDR
  · refine ⟨toInt32 env.num_blocks,
      (List.range env.num_blocks).map
        (fun i => Event.streamBuf (block_buf env env.open_bldr i)) ++
        [Event.closeFd env.open_bldr], ?_, ?_⟩
    · rw [handle_bldr_eq env r h6]
    · intro e hmem
      rcases List.mem_append.mp hmem with hm | hm
      · obtain ⟨i, _, rfl⟩ := List.mem_map.mp hm
        rfl
      · rcases List.mem_singleton.mp hm with rfl
        rfl
  by_cases h7 : r.cmd = TAG_EXIT
  · exact ⟨USB_RESULT_SUCCESS, [], by rw [handle_exit_eq env r h7], by simp⟩
  · exact ⟨USB_RESULT_ERROR, [],
      by rw [handle_unknown_eq env r h1 h2 h3 h4 h5 h6 h7], by simp⟩

/-- C1: For every request frame read by the dispatch loop, exactly one
response frame is written, in the same order as the requests, and any data
phase for that request completes before the next request frame is read; no
request ever yields zero or two response frames.  Every trace of
`usbshell_loop` has the strict lock-step shape `LockStep`. -/
theorem c1_lockstep (env : Env) (rs : List usb_shell_request) :
    LockStep (usbshell_loop env rs) := by
  induction rs with
  | nil => exact LockStep.nil
  | cons r rs ih =>
    obtain ⟨v, ds, hshape, hdata⟩ := handle_shape env r
    have hrest : LockStep
        (if (handle env r).2 then [] else usbshell_loop env rs) := by
      split
      · exact LockStep.nil
      · exact ih
    have hseg := LockStep.seg r v ds
      (if (handle env r).2 then [] else usbshell_loop env rs) hdata hrest
    unfold usbshell_loop
    rw [hshape]
    exact hseg

/-- C5: For every `EXIT` request, the response result is `0` with no data
phase, and the dispatch loop terminates after writing that response, so no
request frame sent after `EXIT` is ever read or processed: the trace of the
whole remaining schedule is exactly the `EXIT` read and its response. -/
theorem c5_exit (env : Env) (r : usb_shell_request)
    (rest : List usb_shell_request) (h : r.cmd = TAG_EXIT) :
    usbshell_loop env (r :: rest) =
      [Event.readReq r, Event.writeResp 0] := by
  unfold usbshell_loop
  rw [handle_exit_eq env r h]
  rfl

theorem c5_exit_witness :
    usbshell_loop env0 [reqOf TAG_EXIT, reqOf TAG_TEST] =
      [Event.readReq (reqOf TAG_EXIT), Event.writeResp 0] :=
  c5_exit env0 (reqOf TAG_EXIT) [reqOf TAG_TEST] rfl

/-- C6: For every request whose 4-byte command tag is not one of `TEST`,
`INFO`, `SHEL`, `EXEC`, `PULL`, `BLDR`, `EXIT`, the response result is `-1`,
no data phase follows, and the loop continues and accepts a subsequent
request: the trace is the read, the `-1` response, and then the trace of the
remaining schedule. -/
theorem c6_unknown (env : Env) (r : usb_shell_request)
    (rest : List usb_shell_request)
    (h1 : r.cmd ≠ TAG_TEST) (h2 : r.cmd ≠ TAG_INFO) (h3 : r.cmd ≠ TAG_SHEL)
    (h4 : r.cmd ≠ TAG_EXEC) (h5 : r.cmd ≠ TAG_PULL) (h6 : r.cmd ≠ TAG_BLDR)
    (h7 : r.cmd ≠ TAG_EXIT) :
    usbshell_loop env (r :: rest) =
      Event.readReq r :: Event.writeResp (-1) :: usbshell_loop env rest := by
  conv_lhs => rw [usbshell_loop]
  rw [handle_unknown_eq env r h1 h2 h3 h4 h5 h6 h7]
  rfl

theorem c6_unknown_witness :
    usbshell_loop env0 [reqUnknown, reqOf TAG_TEST] =
      Event.readReq reqUnknown :: Event.writeResp (-1) ::
        usbshell_loop env0 [reqOf TAG_TEST] :=
  c6_unknown env0 reqUnknown [reqOf TAG_TEST] (by decide) (by decide)
    (by decide) (by decide) (by decide) (by decide) (by decide)

/-- C9: For every `TEST` request, regardless of the contents of the
65528-byte payload, the response result is `0` and no data phase follows. -/
theorem c9_test (env : Env) (r : usb_shell_request) (h : r.cmd = TAG_TEST)
    (hlen : r.data.length = 65528) :
    handle env r = ([Event.writeResp 0], false) :=
  handle_test_eq env r h

theorem c9_test_witness :
    handle env0 reqTestFull = ([Event.writeResp 0], false) :=
  c9_test env0 reqTestFull rfl
    (by simp only [reqTestFull, List.length_replicate])

/-- C3: For every `PULL` request whose path fails to open, the response's
result equals the platform error code returned by the failed open attempt
and no byte stream follows; for every path that opens successfully, the
result is `0` followed by a byte stream equal to the file's contents (the
bytes the returned descriptor yields until EOF). -/
theorem c3_pull (env : Env) (r : usb_shell_request) (h : r.cmd = TAG_PULL) :
    (env.open_path r.data < 0 →
      handle env r = ([Event.writeResp (env.open_path r.data)], false)) ∧
    (0 ≤ env.open_path r.data →
      handle env r = ([Event.writeResp 0,
        Event.streamFd (env.open_path r.data)
          (env.fd_contents (env.open_path r.data))], false)) := by
  constructor
  · intro hfd
    rw [handle_pull_eq env r h]
    simp only [if_neg (not_le.mpr hfd)]
  · intro hfd
    rw [handle_pull_eq env r h]
    simp only [if_pos hfd]
    rfl

theorem c3_pull_witness :
    handle envFail (reqOf TAG_PULL) = ([Event.writeResp (-2)], false) ∧
    handle env0 (reqOf TAG_PULL) =
      ([Event.writeResp 0, Event.streamFd 3 [104, 105]], false) :=
  ⟨(c3_pull envFail (reqOf TAG_PULL) rfl).1 (by decide),
   (c3_pull env0 (reqOf TAG_PULL) rfl).2 (by decide)⟩

/-- C4: For every `INFO` request: if the device-info provider returns
success, the response result is `0`, the dispatcher then performs a
zero-length consuming read, and then writes the full device-info record; if
the provider returns a nonzero error code, the response result equals that
error code and no zero-length read or info record follows. -/
theorem c4_info (env : Env) (r : usb_shell_request) (h : r.cmd = TAG_INFO) :
    ((env.get_device_info).1 = 0 →
      handle env r = ([Event.writeResp 0, Event.readEmpty,
        Event.writeInfo (env.get_device_info).2], false)) ∧
    ((env.get_device_info).1 ≠ 0 →
      handle env r = ([Event.writeResp (env.get_device_info).1], false)) := by
  constructor
  · intro he
    rw [handle_info_eq env r h]
    simp only [if_pos he]
    rfl
  · intro he
    rw [handle_info_eq env r h]
    simp only [if_neg he]

theorem c4_info_witness :
    handle env0 (reqOf TAG_INFO) =
      ([Event.writeResp 0, Event.readEmpty, Event.writeInfo info0], false) ∧
    handle envFail (reqOf TAG_INFO) = ([Event.writeResp (-19)], false) :=
  ⟨(c4_info env0 (reqOf TAG_INFO) rfl).1 rfl,
   (c4_info envFail (reqOf TAG_INFO) rfl).2 (by decide)⟩

/-- C7: For every `SHEL` or `EXEC` request whose subprocess spawn fails
(the spawner returns a negative value), the response result equals that
negative spawn error value and no bridge phase is entered; when the spawn
succeeds, the result is `0` and the bridge phase runs (`SHEL` bridges the
piped stdin/stdout pair, `EXEC` bridges descriptor `0` and the piped
stdout). -/
theorem c7_spawn (env : Env) (r : usb_shell_request) :
    (r.cmd = TAG_SHEL → (env.popen2_shell).1 < 0 →
      handle env r = ([Event.writeResp (env.popen2_shell).1], false)) ∧
    (r.cmd = TAG_SHEL → 0 ≤ (env.popen2_shell).1 →
      handle env r = ([Event.writeResp 0,
        Event.bridge (env.popen2_shell).2.1 (env.popen2_shell).2.2],
        false)) ∧
    (r.cmd = TAG_EXEC → (env.popen2_exec r.data).1 < 0 →
      handle env r = ([Event.writeResp (env.popen2_exec r.data).1], false)) ∧
    (r.cmd = TAG_EXEC → 0 ≤ (env.popen2_exec r.data).1 →
      handle env r = ([Event.writeResp 0,
        Event.bridge 0 (env.popen2_exec r.data).2], false)) := by
  refine ⟨?_, ?_, ?_, ?_⟩
  · intro h hp
    rw [handle_shel_eq env r h]
    simp only [if_neg (not_le.mpr hp)]
  · intro h hp
    rw [handle_shel_eq env r h]
    simp only [if_pos hp]
    rfl
  · intro h hp
    rw [handle_exec_eq env r h]
    simp only [if_neg (not_le.mpr hp)]
  · intro h hp
    rw [handle_exec_eq env r h]
    simp only [if_pos hp]
    rfl

theorem c7_spawn_witness :
    handle envFail (reqOf TAG_SHEL) = ([Event.writeResp (-3)], false) ∧
    handle env0 (reqOf TAG_SHEL) =
      ([Event.writeResp 0, Event.bridge 10 11], false) ∧
    handle envFail (reqOf TAG_EXEC) = ([Event.writeResp (-4)], false) ∧
    handle env0 (reqOf TAG_EXEC) =
      ([Event.writeResp 0, Event.bridge 0 12], false) :=
  ⟨(c7_spawn envFail (reqOf TAG_SHEL)).1 rfl (by decide),
   (c7_spawn env0 (reqOf TAG_SHEL)).2.1 rfl (by decide),
   (c7_spawn envFail (reqOf TAG_EXEC)).2.2.1 rfl (by decide),
   (c7_spawn env0 (reqOf TAG_EXEC)).2.2.2 rfl (by decide)⟩

/-- C8: For every `BLDR` request, the handler's behaviour does not branch on
whether opening the bootloader device succeeded: even when the open fails
(negative handle), it still queries the block count, writes it as the
result, and proceeds to enumerate and stream blocks using the invalid
handle; there is no failure result distinct from the block count. -/
theorem c8_bldr_nobranch (env : Env) (r : usb_shell_request)
    (h : r.cmd = TAG_BLDR) (hfd : env.open_bldr < 0) :
    handle env r =
      (Event.writeResp (toInt32 env.num_blocks) ::
        ((List.range env.num_blocks).map
          (fun i => Event.streamBuf (block_buf env env.open_bldr i)) ++
         [Event.closeFd env.open_bldr]),
        false) :=
  handle_bldr_eq env r h

theorem c8_bldr_nobranch_witness :
    handle envFail (reqOf TAG_BLDR) =
      (Event.writeResp 2 ::
        ([Event.streamBuf [0], Event.streamBuf [10, 11]] ++
         [Event.closeFd (-9)]),
        false) :=
  c8_bldr_nobranch envFail (reqOf TAG_BLDR) rfl (by decide)

/-- C10: The `BLDR` handler stores the bootloader block count, an unsigned
`size_t`, into the 32-bit signed result field, so the wire result equals the
count reduced modulo 2^32 and reinterpreted as a signed 32-bit integer
(it is congruent to the count modulo 2^32 and lies in `[-2^31, 2^31)`);
in particular any `size_t` count of 2^31 or more appears on the wire as a
negative value. -/
theorem c10_trunc (env : Env) (r : usb_shell_request)
    (h : r.cmd = TAG_BLDR) :
    (handle env r).1.head? =
      some (Event.writeResp (toInt32 env.num_blocks)) ∧
    toInt32 env.num_blocks % 2 ^ 32 = (env.num_blocks : Int) % 2 ^ 32 ∧
    -(2 ^ 31) ≤ toInt32 env.num_blocks ∧
    toInt32 env.num_blocks < 2 ^ 31 ∧
    (2 ^ 31 ≤ env.num_blocks → env.num_blocks < 2 ^ 32 →
      toInt32 env.num_blocks < 0) := by
  constructor
  · rw [handle_bldr_eq env r h]
    rfl
  · unfold toInt32
    rw [(by norm_num : (2 : Nat) ^ 32 = 4294967296),
      (by norm_num : (2 : Nat) ^ 31 = 2147483648),
      (by norm_num : (2 : Int) ^ 32 = 4294967296),
      (by norm_num : (2 : Int) ^ 31 = 2147483648)]
    refine ⟨?_, ?_, ?_, ?_⟩
    · split <;> omega
    · split <;> omega
    · split <;> omega
    · intro hlo hhi
      split <;> omega

theorem c10_trunc_witness :
    (handle envBig (reqOf TAG_BLDR)).1.head? =
      some (Event.writeResp (toInt32 envBig.num_blocks)) ∧
    toInt32 envBig.num_blocks < 0 ∧
    toInt32 envBig.num_blocks = -(2 ^ 31) :=
  ⟨(c10_trunc envBig (reqOf TAG_BLDR) rfl).1,
   (c10_trunc envBig (reqOf TAG_BLDR) rfl).2.2.2.2 (by decide) (by decide),
   by decide⟩

/-- C2, counterexample: with a bootloader reader reporting 2^31 image
blocks, the `BLDR` response's result field carries `toInt32 (2^31) = -2^31`,
which is not equal to the reported block count, refuting the claim that the
result always equals the number of blocks. -/
theorem c2_counterexample :
    envBig.num_blocks = 2 ^ 31 ∧
    (handle envBig (reqOf TAG_BLDR)).1.head? =
      some (Event.writeResp (toInt32 envBig.num_blocks)) ∧
    toInt32 envBig.num_blocks ≠ (envBig.num_blocks : Int) := by
  refine ⟨rfl, ?_, by decide⟩
  rw [handle_bldr_eq envBig (reqOf TAG_BLDR) rfl]
  rfl

/-- C2, amended: for every `BLDR` request whose reported block count is less
than 2^31 (so that it is representable in the 32-bit signed result field),
the response's result equals the number of image blocks reported by the
bootloader reader, and the subsequent data phase streams exactly that many
blocks, the i-th streamed buffer having exactly the byte length declared for
block i, in block-enumeration order. -/
theorem c2_bldr (env : Env) (r : usb_shell_request) (h : r.cmd = TAG_BLDR)
    (hn : env.num_blocks < 2 ^ 31) :
    (handle env r).1 =
      Event.writeResp (env.num_blocks : Int) ::
        ((List.range env.num_blocks).map
          (fun i => Event.streamBuf (block_buf env env.open_bldr i)) ++
         [Event.closeFd env.open_bldr]) ∧
    ((List.range env.num_blocks).map
        (fun i => Event.streamBuf (block_buf env env.open_bldr i))).length =
      env.num_blocks ∧
    ∀ i, (block_buf env env.open_bldr i).length =
      env.block_size (env.get_block env.open_bldr i) := by
  have ht : toInt32 env.num_blocks = (env.num_blocks : Int) := by
    unfold toInt32
    have hm : env.num_blocks % 2 ^ 32 = env.num_blocks :=
      Nat.mod_eq_of_lt (lt_trans hn (by norm_num))
    rw [hm, if_pos hn]
  refine ⟨?_, ?_, ?_⟩
  · rw [handle_bldr_eq env r h, ht]
  · simp
  · intro i
    simp [block_buf]

theorem c2_bldr_witness :
    (handle env0 (reqOf TAG_BLDR)).1 =
      Event.writeResp 2 ::
        ([Event.streamBuf [0], Event.streamBuf [10, 11]] ++
         [Event.closeFd 4]) ∧
    (block_buf env0 env0.open_bldr 0).length =
      env0.block_size (env0.get_block env0.open_bldr 0) ∧
    (block_buf env0 env0.open_bldr 1).length =
      env0.block_size (env0.get_block env0.open_bldr 1) :=
  ⟨(c2_bldr env0 (reqOf TAG_BLDR) rfl (by decide)).1,
   (c2_bldr env0 (reqOf TAG_BLDR) rfl (by decide)).2.2 0,
   (c2_bldr env0 (reqOf TAG_BLDR) rfl (by decide)).2.2 1⟩
